import Mathlib

/-!
# Verification of the weather-app core (`weather_stats`)

Shallow embedding of `src/weather_stats/dataset.py` and
`src/weather_stats/stats.py`, together with theorems settling the frozen
claims about the specification.

Modelling conventions:
* A pandas `DataFrame` wrapping daily weather data becomes `DataFrame`:
  a temporal index (`List Date`, from the parsed `DATE` column) plus named
  columns of optional rationals (`none` models a missing value / NaN cell).
* Python exceptions become `Except WError`; `ValueError` carries its exact
  message string, `DataFormatError` models the pandas date-parsing errors.
* Boolean-mask row filtering (`df[mask]`) becomes `DataFrame.maskFilter`.
* `pd.to_datetime(s)` on an endpoint string in the documented `YYYY-MM-DD`
  input format becomes `parseDateISO`; strings outside that format fall to
  the library's format inference, which the embedding does not model, so
  the date-range contract is stated only over in-format strings.
* `.loc[start:end]` label slicing becomes `DataFrame.locSlice`, with the
  index-regime distinction pandas makes: an inclusive value-range filter on
  a monotonic increasing index, the reversed range on a monotonic
  decreasing one, and on a non-monotonic index a positional slice between
  uniquely-present bounds — otherwise `KeyError`.
* Floating-point results are idealised: statistics are computed exactly in
  `ℚ`; only `std` genuinely needs `Real.sqrt`, so the summary's value type
  is `Option ℝ` (with `none` modelling the NaN sentinel pandas produces on
  empty/insufficient data).
-/

/-- A calendar date, as produced by `pd.to_datetime`. -/
structure Date where
  year : Nat
  month : Nat
  day : Nat
deriving DecidableEq, Repr

/-- Numeric key giving the timeline order of (valid) dates; models how
pandas timestamps compare chronologically. -/
def Date.key (d : Date) : Nat := d.year * 10000 + d.month * 100 + d.day

def isLeapYear (y : Nat) : Bool :=
  (y % 4 == 0 && y % 100 != 0) || (y % 400 == 0)

def daysInMonth (y m : Nat) : Nat :=
  if m == 2 then (if isLeapYear y then 29 else 28)
  else if m == 4 || m == 6 || m == 9 || m == 11 then 30
  else 31

/-- Calendar validity, as enforced by `pd.to_datetime`. -/
def Date.valid (d : Date) : Bool :=
  decide (1 ≤ d.month) && decide (d.month ≤ 12) &&
  decide (1 ≤ d.day) && decide (d.day ≤ daysInMonth d.year d.month)

/-- `pd.to_datetime(n, format='%Y%m%d')` on an 8-digit integer date. -/
def parseYYYYMMDD (n : Nat) : Option Date :=
  let d : Date := ⟨n / 10000, n / 100 % 100, n % 100⟩
  if decide (10000000 ≤ n) && decide (n ≤ 99999999) && d.valid then some d else none

def splitOnChar (c : Char) : List Char → List (List Char)
  | [] => [[]]
  | x :: xs =>
    match splitOnChar c xs with
    | [] => [[x]]
    | y :: ys => if x == c then [] :: y :: ys else (x :: y) :: ys

def digitsToNat? (cs : List Char) : Option Nat :=
  if !cs.isEmpty && cs.all (fun c => c.isDigit) then
    some (cs.foldl (fun acc c => acc * 10 + (c.toNat - 48)) 0)
  else none

/-- The year/month/day digit fields of a string in the documented
`YYYY-MM-DD` input format (a 4-digit year and 1-2 digit month and day,
dash-separated), if it has that shape. -/
def parseDateFieldsISO (s : String) : Option (Nat × Nat × Nat) :=
  match splitOnChar (Char.ofNat 45) s.toList with
  | [ys, ms, ds] =>
    if ys.length == 4 && (ms.length == 1 || ms.length == 2)
        && (ds.length == 1 || ds.length == 2) then
      match digitsToNat? ys, digitsToNat? ms, digitsToNat? ds with
      | some y, some m, some d => some (y, m, d)
      | _, _, _ => none
    else none
  | _ => none

/-- `pd.to_datetime(s)` on an endpoint string in the documented
`YYYY-MM-DD` input format: such a string parses exactly when its fields
form a valid calendar date. Out-of-format strings are resolved by the
library's format inference and are outside this model (and outside the
range-filter contract proved below). -/
def parseDateISO (s : String) : Option Date :=
  match parseDateFieldsISO s with
  | some (y, m, d) => if (Date.mk y m d).valid then some ⟨y, m, d⟩ else none
  | none => none

/-- Strings the program certainly rejects: documented `YYYY-MM-DD` shape
with a valid month but a day that is not a valid day of that month, so no
field reinterpretation by the library's format inference can rescue the
parse. -/
def isoShapeBadDay (s : String) : Bool :=
  match parseDateFieldsISO s with
  | some (y, m, d) =>
      decide (1 ≤ m) && decide (m ≤ 12)
        && !(decide (1 ≤ d) && decide (d ≤ daysInMonth y m))
  | none => false

/-- Decidable equality for `Except` results, so concrete runs of the
embedded operations can be checked by `decide`. -/
instance exceptDecEq {e a : Type} [DecidableEq e] [DecidableEq a] :
    DecidableEq (Except e a) := fun x y =>
  match x, y with
  | .ok v, .ok w => if h : v = w then .isTrue (by rw [h]) else .isFalse (by simp [h])
  | .error v, .error w => if h : v = w then .isTrue (by rw [h]) else .isFalse (by simp [h])
  | .ok _, .error _ => .isFalse (by simp)
  | .error _, .ok _ => .isFalse (by simp)

/-- Error domain of the core: Python `ValueError` (with its exact message)
and the pandas date-format errors the spec calls `DataFormatError`. -/
inductive WError where
  | valueError (msg : String)
  | dataFormatError
  | keyError
deriving DecidableEq, Repr

/-- In-memory table after `WeatherDataset.__init__`: the parsed `DATE`
column has become the temporal index; every remaining column holds one
optional numeric cell per row, aligned by position. -/
structure DataFrame where
  index : List Date
  cols : List (String × List (Option ℚ))
deriving DecidableEq, Repr

/-- `column in df.columns`. -/
def DataFrame.hasColumn (df : DataFrame) (column : String) : Bool :=
  df.cols.any (fun c => c.1 == column)

/-- `df[column]` for a column known to exist (defaults to `[]` otherwise;
all uses are guarded by validation). -/
def DataFrame.getCol (df : DataFrame) (column : String) : List (Option ℚ) :=
  ((df.cols.find? (fun c => c.1 == column)).map Prod.snd).getD []

/-- Boolean-mask row selection `df[mask]`, the mask being a predicate on
the temporal index: keeps exactly the rows whose index satisfies `p`. -/
def DataFrame.maskFilter (df : DataFrame) (p : Date → Bool) : DataFrame :=
  { index := df.index.filter p
    cols := df.cols.map (fun c =>
      (c.1, ((df.index.zip c.2).filter (fun x => p x.1)).map Prod.snd)) }

/-- The index is monotonic non-decreasing in chronological order (the
regime in which pandas label slicing is a value-range filter). -/
def chronoInc : List Date → Bool
  | [] => true
  | [_] => true
  | a :: b :: rest => decide (a.key ≤ b.key) && chronoInc (b :: rest)

/-- The index is monotonic non-increasing. -/
def chronoDec : List Date → Bool
  | [] => true
  | [_] => true
  | a :: b :: rest => decide (b.key ≤ a.key) && chronoDec (b :: rest)

/-- The position of a label that occurs exactly once in the index (what
pandas `get_loc` needs to produce a slice bound on a non-monotonic
index); `none` when the label is absent or duplicated. -/
def uniquePos (l : List Date) (d : Date) : Option Nat :=
  if l.count d = 1 then l.findIdx? (fun x => x == d) else none

/-- Positional row slice `df.iloc[i : j+1]` (empty when `i > j`). -/
def DataFrame.rowSlice (df : DataFrame) (i j : Nat) : DataFrame :=
  { index := (df.index.drop i).take (j + 1 - i)
    cols := df.cols.map (fun c => (c.1, (c.2.drop i).take (j + 1 - i))) }

/-- `df.loc[s : e]` label slicing on the temporal index, with the regime
distinction pandas makes: on a monotonic increasing index it keeps
exactly the rows in the inclusive value range `[s, e]`; on a monotonic
decreasing index the bounds are read in index order (rows in `[e, s]`);
on a non-monotonic index it slices positionally between uniquely-present
bounds and otherwise raises `KeyError`. The constructor never re-sorts,
so the non-monotonic regimes are reachable. -/
def DataFrame.locSlice (df : DataFrame) (s e : Date) : Except WError DataFrame :=
  if chronoInc df.index then
    .ok (df.maskFilter (fun d => decide (s.key ≤ d.key) && decide (d.key ≤ e.key)))
  else if chronoDec df.index then
    .ok (df.maskFilter (fun d => decide (e.key ≤ d.key) && decide (d.key ≤ s.key)))
  else
    match uniquePos df.index s, uniquePos df.index e with
    | some i, some j => .ok (df.rowSlice i j)
    | _, _ => .error .keyError

/-! ## `WeatherDataset` (`src/weather_stats/dataset.py`) -/

/-- `columns.str.contains("_")`: the column name has at least one
separator character. -/
def hasSep (s : String) : Bool := s.toList.contains '_'

/-- `name.split("_")[0]`: the substring before the first separator
(the whole name when no separator occurs). -/
def headToken (s : String) : String :=
  String.mk (s.toList.takeWhile (fun c => c != '_'))

/-- The special-case loop body of `get_cities`: the literal code `DE` is
remapped to `DE_BILT`; every other code is kept. -/
def remapDE (s : String) : String := if s == "DE" then "DE_BILT" else s

/-- `pandas.unique`: first-occurrence-order deduplication, written with an
accumulator of already-seen elements. -/
def uniqueFirstAux (seen : List String) : List String → List String
  | [] => []
  | x :: xs =>
    if x ∈ seen then uniqueFirstAux seen xs
    else x :: uniqueFirstAux (x :: seen) xs

def uniqueFirst (l : List String) : List String := uniqueFirstAux [] l

/-- `WeatherDataset.get_cities`, as a function of the table's column
names: keep separator-bearing names, take the token before the first
separator, deduplicate preserving first occurrence, then apply the
`DE → DE_BILT` special case to the resulting list. -/
def WeatherDataset.get_cities (colNames : List String) : List String :=
  (uniqueFirst ((colNames.filter hasSep).map headToken)).map remapDE

/-- `WeatherDataset.filter_by_month`: rows whose index month equals the
given integer (Python ints may be out of the 1-12 range). -/
def WeatherDataset.filter_by_month (df : DataFrame) (month : Int) : DataFrame :=
  df.maskFilter (fun d => (d.month : Int) == month)

/-- `WeatherDataset.filter_by_year`. -/
def WeatherDataset.filter_by_year (df : DataFrame) (year : Int) : DataFrame :=
  df.maskFilter (fun d => (d.year : Int) == year)

/-- `WeatherDataset.filter_by_month_and_year`: conjunction of the two
index predicates. -/
def WeatherDataset.filter_by_month_and_year (df : DataFrame) (month year : Int) : DataFrame :=
  df.maskFilter (fun d => (d.month : Int) == month && (d.year : Int) == year)

/-- `WeatherDataset.filter_by_date_range`: parse both endpoints with
`pd.to_datetime` (raising on an unparsable date string), then take the
label slice `self._data.loc[start:end]` of the temporal index. -/
def WeatherDataset.filter_by_date_range (df : DataFrame) (start_date end_date : String) :
    Except WError DataFrame :=
  match parseDateISO start_date, parseDateISO end_date with
  | some s, some e => df.locSlice s e
  | _, _ => .error .dataFormatError

/-- The exact `ValueError` message `filter_by_season` raises on an
unsupported token (apostrophes written via `Char.ofNat 39`). -/
def seasonErrMsg : String :=
  let q := String.singleton (Char.ofNat 39)
  "Invalid season. Must be one of: " ++ q ++ "spring" ++ q ++ ", " ++ q ++ "summer"
    ++ q ++ ", " ++ q ++ "fall" ++ q ++ ", " ++ q ++ "winter" ++ q ++ "."

/-- Python `str.lower()` on the (ASCII) season token, written over the
character list so concrete runs reduce in the kernel. -/
def strToLower (s : String) : String := String.mk (s.toList.map Char.toLower)

/-- `WeatherDataset.filter_by_season`: lowercase the token, then filter by
the season's month predicate; winter is the disjunction
`month == 12 or month <= 2`. -/
def WeatherDataset.filter_by_season (df : DataFrame) (season : String) :
    Except WError DataFrame :=
  let s := strToLower season
  if s == "spring" then
    .ok (df.maskFilter (fun d => decide (3 ≤ d.month) && decide (d.month ≤ 5)))
  else if s == "summer" then
    .ok (df.maskFilter (fun d => decide (6 ≤ d.month) && decide (d.month ≤ 8)))
  else if s == "fall" then
    .ok (df.maskFilter (fun d => decide (9 ≤ d.month) && decide (d.month ≤ 11)))
  else if s == "winter" then
    .ok (df.maskFilter (fun d => d.month == 12 || decide (d.month ≤ 2)))
  else
    .error (.valueError seasonErrMsg)

/-! ### Construction (`WeatherDataset.__init__`) and its frame effect

The constructor aliases the caller's frame (`self._data = data`), then
mutates it in place (`self._data['DATE'] = pd.to_datetime(...)`), and only
then rebinds `self._data` to the fresh frame `set_index('DATE')` returns.
We model the raw caller-side frame with heterogeneous cells and return
both the caller's frame as it stands after construction and the dataset's
internal indexed frame. -/

/-- One cell of a caller-supplied raw frame: an unparsed 8-digit integer
date, a parsed datetime, or a numeric (possibly missing) value. -/
inductive Cell where
  | rawDate (n : Nat)
  | dt (d : Date)
  | num (q : Option ℚ)
deriving DecidableEq, Repr

/-- The caller's pandas frame before `set_index`: named columns of cells. -/
structure RawFrame where
  cols : List (String × List Cell)
deriving DecidableEq, Repr

/-- Parsing one `DATE` cell with `pd.to_datetime(•, format='%Y%m%d')`:
only raw 8-digit integers parse. -/
def parseCellDate : Cell → Option Date
  | .rawDate n => parseYYYYMMDD n
  | _ => none

def parseDates : List Cell → Option (List Date)
  | [] => some []
  | c :: cs =>
    match parseCellDate c, parseDates cs with
    | some d, some ds => some (d :: ds)
    | _, _ => none

/-- Numeric view of a cell once the frame is wrapped. -/
def Cell.toQ : Cell → Option ℚ
  | .num q => q
  | .rawDate n => some (n : ℚ)
  | .dt _ => none

/-- `WeatherDataset.__init__`: fails (`DataFormatError`) when the `DATE`
column is absent or unparsable; otherwise returns the caller's frame
after the in-place `DATE` overwrite, paired with the dataset's internal
frame in which the parsed dates have become the index. -/
def WeatherDataset.init (data : RawFrame) : Except WError (RawFrame × DataFrame) :=
  match data.cols.find? (fun c => c.1 == "DATE") with
  | none => .error .dataFormatError
  | some dcol =>
    match parseDates dcol.2 with
    | none => .error .dataFormatError
    | some dates =>
      let mutated : RawFrame :=
        ⟨data.cols.map (fun c => if c.1 == "DATE" then (c.1, dates.map Cell.dt) else c)⟩
      let inner : DataFrame :=
        ⟨dates, (data.cols.filter (fun c => c.1 != "DATE")).map
          (fun c => (c.1, c.2.map Cell.toQ))⟩
      .ok (mutated, inner)

/-! ## `WeatherStats` (`src/weather_stats/stats.py`)

Each statistic validates the column against the table in use for this
call (`data` override if given, else the engine's cached frame), then
aggregates the column's non-missing values. `none` results model the NaN
pandas yields on empty (or, for `std`, sub-2-element) data. -/

/-- The stats engine: caches the dataset's frame (`self._data`). -/
structure WeatherStats where
  data : DataFrame
deriving DecidableEq, Repr

/-- `df = data if data is not None else self._data`. -/
def WeatherStats.resolve (ws : WeatherStats) (data : Option DataFrame) : DataFrame :=
  data.getD ws.data

/-- The exact `ValueError` message of `_validate_column` (apostrophes
written via `Char.ofNat 39`). -/
def colNotFoundMsg (column : String) : String :=
  let q := String.singleton (Char.ofNat 39)
  "Column " ++ q ++ column ++ q ++ " not found in dataset"

/-- `WeatherStats._validate_column`. -/
def WeatherStats.validate_column (ws : WeatherStats) (column : String)
    (data : Option DataFrame) : Except WError Unit :=
  if (ws.resolve data).hasColumn column then .ok ()
  else .error (.valueError (colNotFoundMsg column))

/-- Non-missing values of a column (pandas aggregations skip NaN). -/
def dropNone (vs : List (Option ℚ)) : List ℚ := vs.filterMap id

/-- `Series.mean()`: NaN on an empty series. -/
def meanList (vs : List ℚ) : Option ℚ :=
  if vs.isEmpty then none else some (vs.sum / vs.length)

def insertSorted (x : ℚ) : List ℚ → List ℚ
  | [] => [x]
  | y :: ys => if x ≤ y then x :: y :: ys else y :: insertSorted x ys

def sortQ (l : List ℚ) : List ℚ := l.foldr insertSorted []

/-- `Series.median()`: middle of the sorted values, averaging the two
middle elements for an even count; NaN on empty. -/
def medianList (vs : List ℚ) : Option ℚ :=
  let s := sortQ vs
  let n := s.length
  if n == 0 then none
  else if n % 2 == 1 then s[n / 2]?
  else
    match s[n / 2 - 1]?, s[n / 2]? with
    | some a, some b => some ((a + b) / 2)
    | _, _ => none

/-- `Series.min()`: NaN on empty. -/
def listMinQ : List ℚ → Option ℚ
  | [] => none
  | x :: xs => some (xs.foldl min x)

/-- `Series.max()`: NaN on empty. -/
def listMaxQ : List ℚ → Option ℚ
  | [] => none
  | x :: xs => some (xs.foldl max x)

/-- `Series.std()` under the root: the sample variance with denominator
`n - 1`; NaN (none) when fewer than two values are present. -/
def sampleVariance (vs : List ℚ) : Option ℚ :=
  if vs.length < 2 then none
  else
    match meanList vs with
    | none => none
    | some m => some ((vs.map (fun x => (x - m) ^ 2)).sum / ((vs.length : ℚ) - 1))

/-- The peak frequency among the values. -/
def maxCount (vs : List ℚ) : Nat := (vs.map (fun v => vs.count v)).foldl max 0

/-- `Series.mode()[0]` after dropping NaN: the smallest value attaining the
peak frequency; `none` (the NaN sentinel) when there are no values. -/
def modeList (vs : List ℚ) : Option ℚ :=
  listMinQ (vs.filter (fun v => vs.count v == maxCount vs))

/-- `WeatherStats.mean`. -/
def WeatherStats.mean (ws : WeatherStats) (column : String) (data : Option DataFrame) :
    Except WError (Option ℚ) := do
  _ ← ws.validate_column column data
  let df := ws.resolve data
  pure (meanList (dropNone (df.getCol column)))

/-- `WeatherStats.median`. -/
def WeatherStats.median (ws : WeatherStats) (column : String) (data : Option DataFrame) :
    Except WError (Option ℚ) := do
  _ ← ws.validate_column column data
  let df := ws.resolve data
  pure (medianList (dropNone (df.getCol column)))

/-- `WeatherStats.min`. -/
def WeatherStats.min (ws : WeatherStats) (column : String) (data : Option DataFrame) :
    Except WError (Option ℚ) := do
  _ ← ws.validate_column column data
  let df := ws.resolve data
  pure (listMinQ (dropNone (df.getCol column)))

/-- `WeatherStats.max`. -/
def WeatherStats.max (ws : WeatherStats) (column : String) (data : Option DataFrame) :
    Except WError (Option ℚ) := do
  _ ← ws.validate_column column data
  let df := ws.resolve data
  pure (listMaxQ (dropNone (df.getCol column)))

/-- `WeatherStats.std_dev`: the square root of the sample variance (the
only genuinely irrational statistic, hence valued in `ℝ`). -/
noncomputable def WeatherStats.std_dev (ws : WeatherStats) (column : String)
    (data : Option DataFrame) : Except WError (Option ℝ) := do
  _ ← ws.validate_column column data
  let df := ws.resolve data
  pure ((sampleVariance (dropNone (df.getCol column))).map (fun v => Real.sqrt (v : ℝ)))

/-- `WeatherStats.mode`. -/
def WeatherStats.mode (ws : WeatherStats) (column : String) (data : Option DataFrame) :
    Except WError (Option ℚ) := do
  _ ← ws.validate_column column data
  let df := ws.resolve data
  pure (modeList (dropNone (df.getCol column)))

/-- NaN-propagating subtraction of the two optional extrema. -/
def osub : Option ℚ → Option ℚ → Option ℚ
  | some a, some b => some (a - b)
  | _, _ => none

/-- `WeatherStats.range`: validates, resolves the frame, then computes
`self.max(column, df) - self.min(column, df)` by invoking the two
operations (each re-validating against the resolved frame). -/
def WeatherStats.range (ws : WeatherStats) (column : String) (data : Option DataFrame) :
    Except WError (Option ℚ) := do
  _ ← ws.validate_column column data
  let df := ws.resolve data
  let a ← ws.max column (some df)
  let b ← ws.min column (some df)
  pure (osub a b)

/-- Lift an exact rational statistic into the summary's real-valued
domain. -/
noncomputable def qUp : Option ℚ → Option ℝ := Option.map Rat.cast

/-- One generator step of `temperature_summary`: the label together with
the outcome of the statistic call it performs. -/
noncomputable def WeatherStats.summary_steps (ws : WeatherStats) (city : String)
    (data : Option DataFrame) : List (String × Except WError (Option ℝ)) :=
  let base := city ++ "_temp_mean"
  [("Mean", (ws.mean base data).map qUp),
   ("Median", (ws.median base data).map qUp),
   ("Min", (ws.min base data).map qUp),
   ("Max", (ws.max base data).map qUp),
   ("Standard deviation", ws.std_dev base data),
   ("Range", (ws.range base data).map qUp),
   ("Mode", (ws.mode base data).map qUp)]

/-- Observable behaviour of iterating a generator to exhaustion: the pairs
yielded before the first failing step, and the error that step raised (if
any). Already-yielded pairs are retained when a later step fails. -/
def runYield {α : Type} : List (String × Except WError α) → List (String × α) × Option WError
  | [] => ([], none)
  | (l, .ok v) :: rest =>
    let r := runYield rest
    ((l, v) :: r.1, r.2)
  | (_, .error e) :: _ => ([], some e)

/-- `WeatherStats.temperature_summary`, observed through a consumer that
iterates the lazy sequence: the yielded `(label, value)` pairs and the
error, if one propagates mid-sequence. -/
noncomputable def WeatherStats.temperature_summary (ws : WeatherStats) (city : String)
    (data : Option DataFrame) : List (String × Option ℝ) × Option WError :=
  runYield (ws.summary_steps city data)

/-! ## Concrete fixtures used by the claims' witnesses -/

/-- The spec's `temperatureSummary("SLC")` fixture:
`SLC_temp_mean=[30,40,50]`, `SLC_temp_max=[35,45,40]`. -/
def dfSLC : DataFrame :=
  ⟨[⟨2020, 1, 1⟩, ⟨2020, 1, 2⟩, ⟨2020, 1, 3⟩],
   [("SLC_temp_mean", [some 30, some 40, some 50]),
    ("SLC_temp_max", [some 35, some 45, some 40])]⟩

def wsSLC : WeatherStats := ⟨dfSLC⟩

/-- The spec's mode fixture: a column holding `[70, 75, 70]`, plus an
empty column. -/
def dfMode : DataFrame :=
  ⟨[⟨2020, 1, 1⟩, ⟨2020, 1, 2⟩, ⟨2020, 1, 3⟩],
   [("t", [some 70, some 75, some 70]), ("empty", [none, none, none])]⟩

def wsMode : WeatherStats := ⟨dfMode⟩

/-- The spec's date-range fixture: a three-row dataset spanning
January, February and June 2020. -/
def dfSpan : DataFrame :=
  ⟨[⟨2020, 1, 10⟩, ⟨2020, 2, 20⟩, ⟨2020, 6, 30⟩],
   [("UT_temp_mean", [some 1, some 2, some 3])]⟩

/-- The same three 2020 rows in non-chronological order (June, January,
February): a reachable state, since the constructor never re-sorts. -/
def dfUnsorted : DataFrame :=
  ⟨[⟨2020, 6, 30⟩, ⟨2020, 1, 10⟩, ⟨2020, 2, 20⟩],
   [("UT_temp_mean", [some 3, some 1, some 2])]⟩

/-- Rows across seasons and a year boundary, for the season/month filter
witnesses. -/
def dfYear : DataFrame :=
  ⟨[⟨2019, 12, 25⟩, ⟨2020, 1, 15⟩, ⟨2020, 2, 10⟩, ⟨2020, 4, 5⟩,
    ⟨2020, 7, 4⟩, ⟨2020, 10, 31⟩],
   [("UT_temp_mean", [some 0, some 1, some 2, some 3, some 4, some 5])]⟩

/-- A caller-supplied raw frame with an unparsed integer `DATE` column. -/
def frameEx : RawFrame :=
  ⟨[("DATE", [Cell.rawDate 20200115, Cell.rawDate 20200116]),
    ("UT_temp_mean", [Cell.num (some 30), Cell.num (some 31)])]⟩

/-- `frameEx` as the constructor leaves it: the `DATE` column now holds
the parsed datetimes. -/
def frameExMut : RawFrame :=
  ⟨[("DATE", [Cell.dt ⟨2020, 1, 15⟩, Cell.dt ⟨2020, 1, 16⟩]),
    ("UT_temp_mean", [Cell.num (some 30), Cell.num (some 31)])]⟩

/-- The internal indexed frame the constructor builds from `frameEx`. -/
def innerEx : DataFrame :=
  ⟨[⟨2020, 1, 15⟩, ⟨2020, 1, 16⟩], [("UT_temp_mean", [some 30, some 31])]⟩

/-! ## Helper lemmas -/

theorem mem_uniqueFirstAux {seen l : List String} {y : String} :
    y ∈ uniqueFirstAux seen l ↔ y ∈ l ∧ y ∉ seen := by
  induction l generalizing seen with
  | nil => simp [uniqueFirstAux]
  | cons x xs ih =>
    by_cases hx : x ∈ seen
    · simp only [uniqueFirstAux, if_pos hx, ih]
      constructor
      · rintro ⟨h1, h2⟩
        exact ⟨List.mem_cons_of_mem x h1, h2⟩
      · rintro ⟨h1, h2⟩
        rcases List.mem_cons.mp h1 with rfl | h1
        · exact absurd hx h2
        · exact ⟨h1, h2⟩
    · simp only [uniqueFirstAux, if_neg hx]
      constructor
      · intro h
        rcases List.mem_cons.mp h with rfl | h
        · exact ⟨List.mem_cons_self y xs, hx⟩
        · obtain ⟨h1, h2⟩ := ih.mp h
          exact ⟨List.mem_cons_of_mem x h1, fun hy => h2 (List.mem_cons_of_mem x hy)⟩
      · rintro ⟨h1, h2⟩
        rcases List.mem_cons.mp h1 with rfl | h1
        · exact List.mem_cons_self y _
        · by_cases hyx : y = x
          · subst hyx
            exact List.mem_cons_self y _
          · refine List.mem_cons_of_mem x (ih.mpr ⟨h1, ?_⟩)
            intro hy
            rcases List.mem_cons.mp hy with h | h
            · exact hyx h
            · exact h2 h

theorem nodup_uniqueFirstAux (seen l : List String) :
    (uniqueFirstAux seen l).Nodup := by
  induction l generalizing seen with
  | nil => simp [uniqueFirstAux]
  | cons x xs ih =>
    by_cases hx : x ∈ seen
    · simpa [uniqueFirstAux, if_pos hx] using ih seen
    · simp only [uniqueFirstAux, if_neg hx]
      refine List.Nodup.cons ?_ (ih (x :: seen))
      intro hmem
      exact (mem_uniqueFirstAux.mp hmem).2 (List.mem_cons_self x seen)

theorem map_uniqueFirstAux (f : String → String) (seen l : List String)
    (hinj : ∀ a, (a ∈ l ∨ a ∈ seen) → ∀ b, (b ∈ l ∨ b ∈ seen) → f a = f b → a = b) :
    uniqueFirstAux (seen.map f) (l.map f) = (uniqueFirstAux seen l).map f := by
  induction l generalizing seen with
  | nil => simp [uniqueFirstAux]
  | cons x xs ih =>
    have hmem : f x ∈ seen.map f ↔ x ∈ seen := by
      constructor
      · intro hfx
        obtain ⟨b, hb, hfb⟩ := List.mem_map.mp hfx
        have := hinj x (Or.inl (List.mem_cons_self x xs)) b (Or.inr hb) hfb.symm
        exact this ▸ hb
      · exact fun hx => List.mem_map_of_mem f hx
    by_cases hx : x ∈ seen
    · simp only [List.map_cons, uniqueFirstAux, if_pos (hmem.mpr hx), if_pos hx]
      exact ih seen (fun a ha b hb => hinj a
        (ha.imp (List.mem_cons_of_mem x) id) b (hb.imp (List.mem_cons_of_mem x) id))
    · simp only [List.map_cons, uniqueFirstAux, if_neg (fun h => hx (hmem.mp h)), if_neg hx,
        List.map_cons]
      have heq : uniqueFirstAux ((x :: seen).map f) (xs.map f)
          = (uniqueFirstAux (x :: seen) xs).map f := by
        refine ih (x :: seen) (fun a ha b hb => hinj a ?_ b ?_)
        · rcases ha with ha | ha
          · exact Or.inl (List.mem_cons_of_mem x ha)
          · rcases List.mem_cons.mp ha with rfl | ha
            · exact Or.inl (List.mem_cons_self a xs)
            · exact Or.inr ha
        · rcases hb with hb | hb
          · exact Or.inl (List.mem_cons_of_mem x hb)
          · rcases List.mem_cons.mp hb with rfl | hb
            · exact Or.inl (List.mem_cons_self b xs)
            · exact Or.inr hb
      simpa using heq

theorem toList_headToken (s : String) :
    (headToken s).toList = s.toList.takeWhile (fun c => c != '_') := rfl

theorem hasSep_headToken (s : String) : hasSep (headToken s) = false := by
  simp only [hasSep, toList_headToken]
  rw [Bool.eq_false_iff]
  intro hcon
  have hmem : '_' ∈ s.toList.takeWhile (fun c => c != '_') := List.elem_iff.mp hcon
  have := List.mem_takeWhile_imp hmem
  simp at this

theorem remapDE_inj {a b : String} (ha : hasSep a = false) (hb : hasSep b = false)
    (h : remapDE a = remapDE b) : a = b := by
  have hturn : ∀ s : String, hasSep s = false → s ≠ "DE_BILT" := by
    rintro s hs rfl
    have : ('_' : Char) ∈ ("DE_BILT" : String).toList := by decide
    simp only [hasSep, Bool.eq_false_iff] at hs
    exact hs (List.elem_iff.mpr this)
  unfold remapDE at h
  by_cases hA : a = "DE" <;> by_cases hB : b = "DE"
  · rw [hA, hB]
  · rw [if_pos (by simp [hA]), if_neg (by simp [hB])] at h
    exact absurd h.symm (hturn b hb)
  · rw [if_neg (by simp [hA]), if_pos (by simp [hB])] at h
    exact absurd h (hturn a ha)
  · rwa [if_neg (by simp [hA]), if_neg (by simp [hB])] at h

/-- The generator contract: every yield produced before the failing step
is retained; the error propagates from exactly the point it occurs. -/
theorem runYield_append_error {α : Type} (pre : List (String × α)) (lab : String)
    (e : WError) (rest : List (String × Except WError α)) :
    runYield ((pre.map (fun s => (s.1, Except.ok s.2))) ++ (lab, Except.error e) :: rest)
      = (pre, some e) := by
  induction pre with
  | nil => simp [runYield]
  | cons x xs ih => simp [runYield, ih]

/-- A generator whose steps all succeed yields every pair, in order. -/
theorem runYield_all_ok {α : Type} (steps : List (String × α)) :
    runYield (steps.map (fun s => (s.1, Except.ok s.2))) = (steps, none) := by
  induction steps with
  | nil => simp [runYield]
  | cons x xs ih => simp [runYield, ih]

theorem foldl_min_le_init (xs : List ℚ) (x : ℚ) : xs.foldl min x ≤ x := by
  induction xs generalizing x with
  | nil => simp
  | cons y ys ih => exact le_trans (ih (min x y)) (min_le_left x y)

theorem foldl_min_le_mem (xs : List ℚ) (x : ℚ) {v : ℚ} (hv : v ∈ xs) :
    xs.foldl min x ≤ v := by
  induction xs generalizing x with
  | nil => cases hv
  | cons y ys ih =>
    rcases List.mem_cons.mp hv with rfl | hv
    · exact le_trans (foldl_min_le_init ys (min x v)) (min_le_right x v)
    · exact ih (min x y) hv

theorem foldl_min_mem (xs : List ℚ) (x : ℚ) :
    xs.foldl min x = x ∨ xs.foldl min x ∈ xs := by
  induction xs generalizing x with
  | nil => exact Or.inl rfl
  | cons y ys ih =>
    rcases ih (min x y) with h | h
    · rcases min_choice x y with hm | hm
      · exact Or.inl (by rw [List.foldl_cons, h, hm])
      · refine Or.inr ?_
        rw [List.foldl_cons, h, hm]
        exact List.mem_cons_self y ys
    · exact Or.inr (List.mem_cons_of_mem y h)

theorem listMinQ_spec {l : List ℚ} (hne : l ≠ []) :
    ∃ m, listMinQ l = some m ∧ m ∈ l ∧ ∀ v ∈ l, m ≤ v := by
  match l, hne with
  | x :: xs, _ =>
    refine ⟨xs.foldl min x, rfl, ?_, ?_⟩
    · rcases foldl_min_mem xs x with h | h
      · rw [h]
        exact List.mem_cons_self x xs
      · exact List.mem_cons_of_mem x h
    · intro v hv
      rcases List.mem_cons.mp hv with rfl | hv
      · exact foldl_min_le_init xs v
      · exact foldl_min_le_mem xs x hv

theorem le_foldl_max_init (xs : List ℕ) (x : ℕ) : x ≤ xs.foldl max x := by
  induction xs generalizing x with
  | nil => simp
  | cons y ys ih => exact le_trans (le_max_left x y) (ih (max x y))

theorem foldl_max_le (xs : List ℕ) (x : ℕ) {v : ℕ} (hv : v ∈ xs) :
    v ≤ xs.foldl max x := by
  induction xs generalizing x with
  | nil => cases hv
  | cons y ys ih =>
    rcases List.mem_cons.mp hv with rfl | hv
    · exact le_trans (le_max_right x v) (le_foldl_max_init ys (max x v))
    · exact ih (max x y) hv

theorem foldl_max_mem (xs : List ℕ) (x : ℕ) :
    xs.foldl max x = x ∨ xs.foldl max x ∈ xs := by
  induction xs generalizing x with
  | nil => exact Or.inl rfl
  | cons y ys ih =>
    rcases ih (max x y) with h | h
    · rcases max_choice x y with hm | hm
      · exact Or.inl (by rw [List.foldl_cons, h, hm])
      · refine Or.inr ?_
        rw [List.foldl_cons, h, hm]
        exact List.mem_cons_self y ys
    · exact Or.inr (List.mem_cons_of_mem y h)

theorem count_le_maxCount {vs : List ℚ} {v : ℚ} (hv : v ∈ vs) :
    vs.count v ≤ maxCount vs :=
  foldl_max_le _ 0 (List.mem_map_of_mem _ hv)

theorem maxCount_attained {vs : List ℚ} (hne : vs ≠ []) :
    ∃ v ∈ vs, vs.count v = maxCount vs := by
  rcases foldl_max_mem (vs.map (fun v => vs.count v)) 0 with h | h
  · match vs, hne with
    | x :: xs, _ =>
      exfalso
      have hx : (x :: xs).count x ≤ maxCount (x :: xs) :=
        count_le_maxCount (List.mem_cons_self x xs)
      have hpos : 0 < (x :: xs).count x :=
        List.count_pos_iff.mpr (List.mem_cons_self x xs)
      rw [maxCount] at hx
      omega
  · obtain ⟨v, hv, hcount⟩ := List.mem_map.mp h
    exact ⟨v, hv, hcount⟩

/-- A documented-format string with a valid month but an invalid day is
rejected by the date parser. -/
theorem isoShapeBadDay_parse_none {s : String} (h : isoShapeBadDay s = true) :
    parseDateISO s = none := by
  unfold isoShapeBadDay at h
  unfold parseDateISO
  cases hf : parseDateFieldsISO s with
  | none => simp_all
  | some t =>
    obtain ⟨y, m, d⟩ := t
    rw [hf] at h
    have hb : (decide (1 ≤ m) && decide (m ≤ 12)
        && !(decide (1 ≤ d) && decide (d ≤ daysInMonth y m))) = true := h
    have hv : (Date.mk y m d).valid = false := by
      simp only [Bool.and_eq_true, Bool.not_eq_true', Bool.and_eq_false_iff,
        decide_eq_true_eq, decide_eq_false_iff_not] at hb
      simp only [Date.valid, Bool.and_eq_false_iff, decide_eq_false_iff_not]
      rcases hb with ⟨⟨h1, h2⟩, h3 | h3⟩ <;> tauto
    simp [hv]

theorem resolve_some (ws : WeatherStats) (df : DataFrame) :
    ws.resolve (some df) = df := rfl

theorem validate_column_ok {ws : WeatherStats} {column : String} {data : Option DataFrame}
    (h : (ws.resolve data).hasColumn column = true) :
    ws.validate_column column data = .ok () := by
  simp [WeatherStats.validate_column, h]

theorem validate_column_err {ws : WeatherStats} {column : String} {data : Option DataFrame}
    (h : (ws.resolve data).hasColumn column = false) :
    ws.validate_column column data = .error (.valueError (colNotFoundMsg column)) := by
  simp [WeatherStats.validate_column, h]

theorem mean_eq (ws : WeatherStats) (column : String) (data : Option DataFrame) :
    ws.mean column data =
      if (ws.resolve data).hasColumn column then
        .ok (meanList (dropNone ((ws.resolve data).getCol column)))
      else .error (.valueError (colNotFoundMsg column)) := by
  cases h : (ws.resolve data).hasColumn column
  · simp [WeatherStats.mean, validate_column_err h, h]
  · simp [WeatherStats.mean, validate_column_ok h, h]

theorem median_eq (ws : WeatherStats) (column : String) (data : Option DataFrame) :
    ws.median column data =
      if (ws.resolve data).hasColumn column then
        .ok (medianList (dropNone ((ws.resolve data).getCol column)))
      else .error (.valueError (colNotFoundMsg column)) := by
  cases h : (ws.resolve data).hasColumn column
  · simp [WeatherStats.median, validate_column_err h, h]
  · simp [WeatherStats.median, validate_column_ok h, h]

theorem min_eq (ws : WeatherStats) (column : String) (data : Option DataFrame) :
    ws.min column data =
      if (ws.resolve data).hasColumn column then
        .ok (listMinQ (dropNone ((ws.resolve data).getCol column)))
      else .error (.valueError (colNotFoundMsg column)) := by
  cases h : (ws.resolve data).hasColumn column
  · simp [WeatherStats.min, validate_column_err h, h]
  · simp [WeatherStats.min, validate_column_ok h, h]

theorem max_eq (ws : WeatherStats) (column : String) (data : Option DataFrame) :
    ws.max column data =
      if (ws.resolve data).hasColumn column then
        .ok (listMaxQ (dropNone ((ws.resolve data).getCol column)))
      else .error (.valueError (colNotFoundMsg column)) := by
  cases h : (ws.resolve data).hasColumn column
  · simp [WeatherStats.max, validate_column_err h, h]
  · simp [WeatherStats.max, validate_column_ok h, h]

theorem std_dev_eq (ws : WeatherStats) (column : String) (data : Option DataFrame) :
    ws.std_dev column data =
      if (ws.resolve data).hasColumn column then
        .ok ((sampleVariance (dropNone ((ws.resolve data).getCol column))).map
          (fun v => Real.sqrt (v : ℝ)))
      else .error (.valueError (colNotFoundMsg column)) := by
  cases h : (ws.resolve data).hasColumn column
  · simp [WeatherStats.std_dev, validate_column_err h, h]
  · simp [WeatherStats.std_dev, validate_column_ok h, h]

theorem mode_eq (ws : WeatherStats) (column : String) (data : Option DataFrame) :
    ws.mode column data =
      if (ws.resolve data).hasColumn column then
        .ok (modeList (dropNone ((ws.resolve data).getCol column)))
      else .error (.valueError (colNotFoundMsg column)) := by
  cases h : (ws.resolve data).hasColumn column
  · simp [WeatherStats.mode, validate_column_err h, h]
  · simp [WeatherStats.mode, validate_column_ok h, h]

theorem range_eq (ws : WeatherStats) (column : String) (data : Option DataFrame) :
    ws.range column data =
      if (ws.resolve data).hasColumn column then
        .ok (osub (listMaxQ (dropNone ((ws.resolve data).getCol column)))
          (listMinQ (dropNone ((ws.resolve data).getCol column))))
      else .error (.valueError (colNotFoundMsg column)) := by
  cases h : (ws.resolve data).hasColumn column
  · simp [WeatherStats.range, validate_column_err h, h, Bind.bind, Except.bind]
  · have hs : (ws.resolve (some (ws.resolve data))).hasColumn column = true := h
    simp [WeatherStats.range, validate_column_ok h, h, max_eq, min_eq, resolve_some, hs,
      Bind.bind, Except.bind, Functor.map, Except.map, Pure.pure, Except.pure]

/-- When the target column is present, the summary generator succeeds
step by step and yields the seven statistics in their fixed order. -/
theorem temperature_summary_ok (ws : WeatherStats) (city : String) (data : Option DataFrame)
    (h : (ws.resolve data).hasColumn (city ++ "_temp_mean") = true) :
    ws.temperature_summary city data =
      (let vals := dropNone ((ws.resolve data).getCol (city ++ "_temp_mean"))
       [("Mean", qUp (meanList vals)),
        ("Median", qUp (medianList vals)),
        ("Min", qUp (listMinQ vals)),
        ("Max", qUp (listMaxQ vals)),
        ("Standard deviation", (sampleVariance vals).map (fun v => Real.sqrt (v : ℝ))),
        ("Range", qUp (osub (listMaxQ vals) (listMinQ vals))),
        ("Mode", qUp (modeList vals))], none) := by
  simp only [WeatherStats.temperature_summary, WeatherStats.summary_steps,
    mean_eq, median_eq, min_eq, max_eq, std_dev_eq, mode_eq, range_eq, if_pos h]
  simp [runYield, Except.map]

/-- When the target column is missing, iterating the summary propagates
the column-not-found failure from the point it occurs (the first
statistic), after yielding everything computed before it (nothing). -/
theorem temperature_summary_err (ws : WeatherStats) (city : String) (data : Option DataFrame)
    (h : (ws.resolve data).hasColumn (city ++ "_temp_mean") = false) :
    ws.temperature_summary city data =
      ([], some (.valueError (colNotFoundMsg (city ++ "_temp_mean")))) := by
  simp only [WeatherStats.temperature_summary, WeatherStats.summary_steps, mean_eq, if_neg,
    h, Bool.false_eq_true, reduceIte]
  simp [runYield, Except.map]

/-! ## Claims -/

/-- C1: for every table, the derived city set contains, for each column
name with at least one separator, the substring before the first
separator with the literal code `DE` remapped to `DE_BILT`; columns
without a separator contribute no city; the sequence preserves
first-occurrence order (it equals the first-occurrence deduplication of
the remapped head tokens) and contains no duplicates. -/
theorem C1_get_cities_spec (colNames : List String) :
    WeatherDataset.get_cities colNames
        = uniqueFirst (((colNames.filter hasSep).map headToken).map remapDE)
    ∧ (WeatherDataset.get_cities colNames).Nodup
    ∧ (∀ c ∈ colNames, hasSep c = true →
        remapDE (headToken c) ∈ WeatherDataset.get_cities colNames)
    ∧ (∀ y ∈ WeatherDataset.get_cities colNames,
        ∃ c ∈ colNames, hasSep c = true ∧ y = remapDE (headToken c)) := by
  set l : List String := (colNames.filter hasSep).map headToken with hl
  have hnosep : ∀ a ∈ l, hasSep a = false := by
    intro a ha
    obtain ⟨c, _, rfl⟩ := List.mem_map.mp ha
    exact hasSep_headToken c
  have hinj : ∀ a, (a ∈ l ∨ a ∈ ([] : List String)) →
      ∀ b, (b ∈ l ∨ b ∈ ([] : List String)) → remapDE a = remapDE b → a = b := by
    rintro a (ha | ha) b (hb | hb) hab
    · exact remapDE_inj (hnosep a ha) (hnosep b hb) hab
    · cases hb
    · cases ha
    · cases ha
  have hcomm : uniqueFirst (l.map remapDE) = (uniqueFirst l).map remapDE := by
    simpa [uniqueFirst] using map_uniqueFirstAux remapDE [] l hinj
  refine ⟨hcomm.symm, ?_, ?_, ?_⟩
  · refine List.Nodup.map_on ?_ (nodup_uniqueFirstAux [] l)
    intro x hx y hy hxy
    have hx' := (mem_uniqueFirstAux.mp hx).1
    have hy' := (mem_uniqueFirstAux.mp hy).1
    exact remapDE_inj (hnosep x hx') (hnosep y hy') hxy
  · intro c hc hsep
    have hmem : headToken c ∈ l :=
      List.mem_map_of_mem headToken (List.mem_filter.mpr ⟨hc, hsep⟩)
    exact List.mem_map_of_mem remapDE (mem_uniqueFirstAux.mpr ⟨hmem, by simp⟩)
  · intro y hy
    obtain ⟨a, ha, rfl⟩ := List.mem_map.mp hy
    have ha' := (mem_uniqueFirstAux.mp ha).1
    obtain ⟨c, hc, rfl⟩ := List.mem_map.mp ha'
    obtain ⟨hcc, hsep⟩ := List.mem_filter.mp hc
    exact ⟨c, hcc, hsep, rfl⟩

/-- Witness for C1, at a concrete column list exercising the separator
filter, the `DE` remap and deduplication. -/
theorem C1_get_cities_witness :
    remapDE (headToken "DE_temp_mean")
        ∈ WeatherDataset.get_cities ["UT_temp_mean", "DE_temp_mean", "UT_temp_max", "plain"]
    ∧ (WeatherDataset.get_cities
        ["UT_temp_mean", "DE_temp_mean", "UT_temp_max", "plain"]).Nodup :=
  ⟨(C1_get_cities_spec _).2.2.1 "DE_temp_mean" (by decide) (by decide),
   (C1_get_cities_spec _).2.1⟩

/-- C2: for every city code, `temperature_summary` targets the column
`{city}_temp_mean` and (when it exists) yields exactly seven labelled
statistics in the fixed order Mean, Median, Min, Max, Standard deviation,
Range, Mode; on the concrete `SLC` fixture the values are
40, 40, 30, 50, 10, 20, 30. -/
theorem C2_temperature_summary_spec :
    (∀ (ws : WeatherStats) (city : String) (data : Option DataFrame),
        (ws.resolve data).hasColumn (city ++ "_temp_mean") = true →
        ws.temperature_summary city data =
          (let vals := dropNone ((ws.resolve data).getCol (city ++ "_temp_mean"))
           [("Mean", qUp (meanList vals)),
            ("Median", qUp (medianList vals)),
            ("Min", qUp (listMinQ vals)),
            ("Max", qUp (listMaxQ vals)),
            ("Standard deviation", (sampleVariance vals).map (fun v => Real.sqrt (v : ℝ))),
            ("Range", qUp (osub (listMaxQ vals) (listMinQ vals))),
            ("Mode", qUp (modeList vals))], none))
    ∧ wsSLC.temperature_summary "SLC" none =
        ([("Mean", some 40), ("Median", some 40), ("Min", some 30), ("Max", some 50),
          ("Standard deviation", some 10), ("Range", some 20), ("Mode", some 30)],
         none) := by
  refine ⟨temperature_summary_ok, ?_⟩
  rw [temperature_summary_ok wsSLC "SLC" none (by decide)]
  have hvals : dropNone ((wsSLC.resolve none).getCol ("SLC" ++ "_temp_mean"))
      = [30, 40, 50] := by decide
  have hm : meanList [30, 40, 50] = some 40 := by norm_num [meanList]
  have hmed : medianList [30, 40, 50] = some 40 := by
    norm_num [medianList, sortQ, insertSorted]
  have hmin : listMinQ [30, 40, 50] = some 30 := by norm_num [listMinQ, min_def]
  have hmax : listMaxQ [30, 40, 50] = some 50 := by norm_num [listMaxQ, max_def]
  have hvar : sampleVariance [30, 40, 50] = some 100 := by
    norm_num [sampleVariance, meanList]
  have hmode : modeList [30, 40, 50] = some 30 := by decide
  have hsq : Real.sqrt ((100 : ℚ) : ℝ) = 10 := by
    rw [show ((100 : ℚ) : ℝ) = (10 : ℝ) ^ 2 by norm_num,
      Real.sqrt_sq (by norm_num : (0 : ℝ) ≤ 10)]
  have hsq2 : Real.sqrt (100 : ℝ) = 10 := by
    rw [show (100 : ℝ) = (10 : ℝ) ^ 2 by norm_num,
      Real.sqrt_sq (by norm_num : (0 : ℝ) ≤ 10)]
  simp only [hvals, hm, hmed, hmin, hmax, hvar, hmode, Option.map_some, hsq, qUp, osub]
  norm_num [hsq2]

/-- Witness for C2: on the `SLC` fixture the target column exists and the
summary yields the seven labels in their fixed order. -/
theorem C2_temperature_summary_witness :
    (wsSLC.resolve none).hasColumn ("SLC" ++ "_temp_mean") = true
    ∧ (wsSLC.temperature_summary "SLC" none).1.map Prod.fst =
        ["Mean", "Median", "Min", "Max", "Standard deviation", "Range", "Mode"] := by
  refine ⟨by decide, ?_⟩
  rw [C2_temperature_summary_spec.1 wsSLC "SLC" none (by decide)]
  simp

/-- C3: when the target column `{city}_temp_mean` is missing from the
table in use, iterating the summary raises the validation failure from
the point in the sequence where it occurs — here the very first
statistic, so nothing precedes it — and, in general, every statistic
computed before the failing step has already been yielded and is not
rolled back. -/
theorem C3_summary_partial_failure :
    (∀ (ws : WeatherStats) (city : String) (data : Option DataFrame),
        (ws.resolve data).hasColumn (city ++ "_temp_mean") = false →
        ws.temperature_summary city data =
          ([], some (.valueError (colNotFoundMsg (city ++ "_temp_mean")))))
    ∧ (∀ (α : Type) (pre : List (String × α)) (lab : String) (e : WError)
        (rest : List (String × Except WError α)),
        runYield ((pre.map (fun s => (s.1, Except.ok s.2))) ++ (lab, Except.error e) :: rest)
          = (pre, some e)) :=
  ⟨temperature_summary_err, fun _ => runYield_append_error⟩

/-- Witness for C3: asking the `SLC` fixture for the unknown city `UT`
propagates the column-not-found failure with no prior yields. -/
theorem C3_summary_partial_failure_witness :
    wsSLC.temperature_summary "UT" none
      = ([], some (.valueError (colNotFoundMsg ("UT" ++ "_temp_mean")))) :=
  C3_summary_partial_failure.1 wsSLC "UT" none (by decide)

/-- C4: for each of mean, median, min, max, std_dev and mode, on every
column and table in use (the override if given, else the default): a
missing column raises `ValueError` with exactly the message
`Column <name> not found in dataset` (name quoted), and a present column
raises no column-not-found error. -/
theorem C4_validation_spec (ws : WeatherStats) (column : String) (data : Option DataFrame) :
    ((ws.resolve data).hasColumn column = false →
      ws.mean column data = .error (.valueError (colNotFoundMsg column))
      ∧ ws.median column data = .error (.valueError (colNotFoundMsg column))
      ∧ ws.min column data = .error (.valueError (colNotFoundMsg column))
      ∧ ws.max column data = .error (.valueError (colNotFoundMsg column))
      ∧ ws.std_dev column data = .error (.valueError (colNotFoundMsg column))
      ∧ ws.mode column data = .error (.valueError (colNotFoundMsg column)))
    ∧ ((ws.resolve data).hasColumn column = true →
      (∃ v, ws.mean column data = .ok v)
      ∧ (∃ v, ws.median column data = .ok v)
      ∧ (∃ v, ws.min column data = .ok v)
      ∧ (∃ v, ws.max column data = .ok v)
      ∧ (∃ v, ws.std_dev column data = .ok v)
      ∧ (∃ v, ws.mode column data = .ok v)) := by
  constructor
  · intro h
    simp [mean_eq, median_eq, min_eq, max_eq, std_dev_eq, mode_eq, h]
  · intro h
    simp [mean_eq, median_eq, min_eq, max_eq, std_dev_eq, mode_eq, h]

/-- Witness for C4: on the `SLC` fixture, a missing column raises the
exact message and a present one succeeds. -/
theorem C4_validation_witness :
    wsSLC.mean "nope" none = .error (.valueError (colNotFoundMsg "nope"))
    ∧ ∃ v, wsSLC.median "SLC_temp_max" none = .ok v :=
  ⟨((C4_validation_spec wsSLC "nope" none).1 (by decide)).1,
   ((C4_validation_spec wsSLC "SLC_temp_max" none).2 (by decide)).2.1⟩

/-- C5 counterexample: on a dataset whose temporal index is not
chronologically ordered, the range query raises `KeyError` even though
every row lies inside the requested range — so `filter_by_date_range`
does not return the in-range rows for every dataset, refuting the claim
as stated. -/
theorem C5_filter_by_date_range_counterexample :
    WeatherDataset.filter_by_date_range dfUnsorted "2020-01-01" "2020-12-31"
        = .error .keyError
    ∧ WeatherDataset.filter_by_date_range dfUnsorted "2020-01-01" "2020-12-31"
        ≠ .ok (dfUnsorted.maskFilter (fun d =>
            decide ((Date.mk 2020 1 1).key ≤ d.key)
              && decide (d.key ≤ (Date.mk 2020 12 31).key)))
    ∧ dfUnsorted.index.all (fun d =>
        decide ((Date.mk 2020 1 1).key ≤ d.key)
          && decide (d.key ≤ (Date.mk 2020 12 31).key)) = true := by
  refine ⟨by decide, by decide, by decide⟩

/-- C5 (amended): on every dataset whose temporal index is
chronologically ordered, and for endpoint strings in the documented
`YYYY-MM-DD` format denoting valid calendar dates, `filter_by_date_range`
returns exactly the rows whose index falls within `[start, end]`
inclusive, with an empty result (not an error) when start exceeds end or
when no rows fall in the range; an endpoint of that format whose day is
invalid for its (valid) month fails with the date-format error. -/
theorem C5_filter_by_date_range_amended (df : DataFrame) (start_date end_date : String) :
    (∀ ds de, parseDateISO start_date = some ds → parseDateISO end_date = some de →
      chronoInc df.index = true →
      WeatherDataset.filter_by_date_range df start_date end_date
          = .ok (df.maskFilter (fun d => decide (ds.key ≤ d.key) && decide (d.key ≤ de.key)))
      ∧ (∀ d, d ∈ (df.maskFilter
            (fun d => decide (ds.key ≤ d.key) && decide (d.key ≤ de.key))).index
          ↔ d ∈ df.index ∧ ds.key ≤ d.key ∧ d.key ≤ de.key)
      ∧ (de.key < ds.key → (df.maskFilter
            (fun d => decide (ds.key ≤ d.key) && decide (d.key ≤ de.key))).index = [])
      ∧ ((∀ d ∈ df.index, ¬(ds.key ≤ d.key ∧ d.key ≤ de.key)) → (df.maskFilter
            (fun d => decide (ds.key ≤ d.key) && decide (d.key ≤ de.key))).index = []))
    ∧ ((isoShapeBadDay start_date = true ∨ isoShapeBadDay end_date = true) →
      WeatherDataset.filter_by_date_range df start_date end_date
          = .error .dataFormatError) := by
  constructor
  · intro ds de hs he hchrono
    refine ⟨?_, ?_, ?_, ?_⟩
    · simp [WeatherDataset.filter_by_date_range, hs, he, DataFrame.locSlice, hchrono]
    · intro d
      simp [DataFrame.maskFilter, List.mem_filter]
    · intro hlt
      apply List.filter_eq_nil_iff.mpr
      intro d _
      simp only [Bool.and_eq_true, decide_eq_true_eq, not_and]
      omega
    · intro hnone
      apply List.filter_eq_nil_iff.mpr
      intro d hd
      simpa using hnone d hd
  · rintro (h | h)
    · have hps := isoShapeBadDay_parse_none h
      cases he2 : parseDateISO end_date <;>
        simp [WeatherDataset.filter_by_date_range, hps, he2]
    · have hpe := isoShapeBadDay_parse_none h
      cases hs2 : parseDateISO start_date <;>
        simp [WeatherDataset.filter_by_date_range, hpe, hs2]

/-- Witness for C5: on the chronological three-row Jan/Feb/Jun 2020
fixture, the full 2020 range keeps all three rows, a 2021 range keeps
none, and the in-format but calendar-invalid endpoint `2020-02-30`
raises the date-format error. -/
theorem C5_filter_by_date_range_witness :
    WeatherDataset.filter_by_date_range dfSpan "2020-01-01" "2020-12-31"
        = .ok (dfSpan.maskFilter (fun d =>
            decide ((Date.mk 2020 1 1).key ≤ d.key)
              && decide (d.key ≤ (Date.mk 2020 12 31).key)))
    ∧ (dfSpan.maskFilter (fun d =>
          decide ((Date.mk 2020 1 1).key ≤ d.key)
            && decide (d.key ≤ (Date.mk 2020 12 31).key))).index = dfSpan.index
    ∧ (dfSpan.maskFilter (fun d =>
          decide ((Date.mk 2021 1 1).key ≤ d.key)
            && decide (d.key ≤ (Date.mk 2021 12 31).key))).index = []
    ∧ WeatherDataset.filter_by_date_range dfSpan "2020-02-30" "2020-12-31"
        = .error .dataFormatError := by
  refine ⟨((C5_filter_by_date_range_amended dfSpan "2020-01-01" "2020-12-31").1
      ⟨2020, 1, 1⟩ ⟨2020, 12, 31⟩ (by decide) (by decide) (by decide)).1,
    by decide,
    ((C5_filter_by_date_range_amended dfSpan "2021-01-01" "2021-12-31").1
      ⟨2021, 1, 1⟩ ⟨2021, 12, 31⟩ (by decide) (by decide) (by decide)).2.2.2 (by decide),
    (C5_filter_by_date_range_amended dfSpan "2020-02-30" "2020-12-31").2
      (Or.inl (by decide))⟩

/-- C6: `filter_by_season` maps, case-insensitively, spring to months
3-5, summer to 6-8, fall to 9-11 and winter to the disjunction
`month == 12 OR month <= 2` (exactly the December, January and February
rows when months are calendar-valid); any other token fails with the
invalid-season `ValueError` (the spec's `InvalidArgument`). -/
theorem C6_filter_by_season_spec (df : DataFrame) (season : String) :
    (strToLower season = "spring" →
      WeatherDataset.filter_by_season df season
        = .ok (df.maskFilter (fun d => decide (3 ≤ d.month) && decide (d.month ≤ 5))))
    ∧ (strToLower season = "summer" →
      WeatherDataset.filter_by_season df season
        = .ok (df.maskFilter (fun d => decide (6 ≤ d.month) && decide (d.month ≤ 8))))
    ∧ (strToLower season = "fall" →
      WeatherDataset.filter_by_season df season
        = .ok (df.maskFilter (fun d => decide (9 ≤ d.month) && decide (d.month ≤ 11))))
    ∧ (strToLower season = "winter" →
      WeatherDataset.filter_by_season df season
        = .ok (df.maskFilter (fun d => d.month == 12 || decide (d.month ≤ 2)))
      ∧ ((∀ d ∈ df.index, 1 ≤ d.month) → ∀ d,
          d ∈ (df.maskFilter (fun d => d.month == 12 || decide (d.month ≤ 2))).index
            ↔ d ∈ df.index ∧ (d.month = 12 ∨ d.month = 1 ∨ d.month = 2)))
    ∧ (strToLower season ∉ ["spring", "summer", "fall", "winter"] →
      WeatherDataset.filter_by_season df season = .error (.valueError seasonErrMsg)) := by
  refine ⟨?_, ?_, ?_, ?_, ?_⟩
  · intro h
    simp [WeatherDataset.filter_by_season, h]
  · intro h
    simp [WeatherDataset.filter_by_season, h]
  · intro h
    simp [WeatherDataset.filter_by_season, h]
  · intro h
    refine ⟨by simp [WeatherDataset.filter_by_season, h], ?_⟩
    intro hvalid d
    simp only [DataFrame.maskFilter, List.mem_filter, Bool.or_eq_true, beq_iff_eq,
      decide_eq_true_eq]
    constructor
    · rintro ⟨hd, hm⟩
      have := hvalid d hd
      exact ⟨hd, by omega⟩
    · rintro ⟨hd, hm⟩
      exact ⟨hd, by omega⟩
  · intro h
    simp only [List.mem_cons, List.not_mem_nil, or_false, not_or] at h
    obtain ⟨h1, h2, h3, h4⟩ := h
    simp [WeatherDataset.filter_by_season, h1, h2, h3, h4]

/-- Witness for C6: on the multi-season fixture, `"Winter"` keeps exactly
the December, January and February rows and `"bogus"` raises the
invalid-season error. -/
theorem C6_filter_by_season_witness :
    WeatherDataset.filter_by_season dfYear "Winter"
        = .ok (dfYear.maskFilter (fun d => d.month == 12 || decide (d.month ≤ 2)))
    ∧ (dfYear.maskFilter (fun d => d.month == 12 || decide (d.month ≤ 2))).index
        = [⟨2019, 12, 25⟩, ⟨2020, 1, 15⟩, ⟨2020, 2, 10⟩]
    ∧ WeatherDataset.filter_by_season dfYear "bogus"
        = .error (.valueError seasonErrMsg) :=
  ⟨(((C6_filter_by_season_spec dfYear "Winter").2.2.2.1) (by decide)).1,
   by decide,
   (C6_filter_by_season_spec dfYear "bogus").2.2.2.2 (by decide)⟩

/-- C7: `filter_by_month` keeps exactly the rows whose index month equals
the given integer across all years, with no bounds error — out-of-range
months simply match nothing; `filter_by_year` and
`filter_by_month_and_year` are the analogous (conjoined) predicates. -/
theorem C7_calendar_filters_spec (df : DataFrame) (m y : Int) :
    (WeatherDataset.filter_by_month df m).index
        = df.index.filter (fun d => (d.month : Int) == m)
    ∧ (∀ d, d ∈ (WeatherDataset.filter_by_month df m).index
        ↔ d ∈ df.index ∧ (d.month : Int) = m)
    ∧ (∀ d, d ∈ (WeatherDataset.filter_by_year df y).index
        ↔ d ∈ df.index ∧ (d.year : Int) = y)
    ∧ (∀ d, d ∈ (WeatherDataset.filter_by_month_and_year df m y).index
        ↔ d ∈ df.index ∧ (d.month : Int) = m ∧ (d.year : Int) = y)
    ∧ ((∀ d ∈ df.index, 1 ≤ d.month ∧ d.month ≤ 12) → (m < 1 ∨ 12 < m) →
        (WeatherDataset.filter_by_month df m).index = []) := by
  refine ⟨rfl, ?_, ?_, ?_, ?_⟩
  · intro d
    simp [WeatherDataset.filter_by_month, DataFrame.maskFilter, List.mem_filter]
  · intro d
    simp [WeatherDataset.filter_by_year, DataFrame.maskFilter, List.mem_filter]
  · intro d
    simp [WeatherDataset.filter_by_month_and_year, DataFrame.maskFilter, List.mem_filter,
      and_assoc]
  · intro hvalid hm
    apply List.filter_eq_nil_iff.mpr
    intro d hd
    have := hvalid d hd
    simp only [beq_iff_eq]
    omega

/-- Witness for C7: on the multi-season fixture, month 2 keeps exactly
the February row, the month/year conjunction picks out one row, and the
out-of-range month 13 matches nothing without an error. -/
theorem C7_calendar_filters_witness :
    ((⟨2020, 2, 10⟩ : Date) ∈ (WeatherDataset.filter_by_month dfYear 2).index
      ↔ (⟨2020, 2, 10⟩ : Date) ∈ dfYear.index ∧ ((2 : Nat) : Int) = 2)
    ∧ (WeatherDataset.filter_by_month dfYear 13).index = [] := by
  refine ⟨?_, (C7_calendar_filters_spec dfYear 13 2020).2.2.2.2 (by decide) (by omega)⟩
  simpa using (C7_calendar_filters_spec dfYear 2 2020).2.1 ⟨2020, 2, 10⟩

/-- C8: for every valid column, `range` equals `max - min`, computed by
invoking the max and min operations on the resolved table, and its errors
surface identically to a failed `max`/`min`. -/
theorem C8_range_spec (ws : WeatherStats) (column : String) (data : Option DataFrame) :
    ((ws.resolve data).hasColumn column = true →
      ∃ a b, ws.max column data = .ok a ∧ ws.min column data = .ok b
        ∧ ws.range column data = .ok (osub a b))
    ∧ (∀ e, ws.range column data = .error e ↔ ws.max column data = .error e)
    ∧ (∀ e, ws.range column data = .error e ↔ ws.min column data = .error e) := by
  cases h : (ws.resolve data).hasColumn column
  · refine ⟨by simp, ?_, ?_⟩ <;> intro e <;>
      simp [range_eq, max_eq, min_eq, h]
  · refine ⟨?_, ?_, ?_⟩
    · intro _
      exact ⟨listMaxQ (dropNone ((ws.resolve data).getCol column)),
        listMinQ (dropNone ((ws.resolve data).getCol column)),
        by simp [max_eq, h], by simp [min_eq, h], by simp [range_eq, h]⟩
    · intro e
      simp [range_eq, max_eq, h]
    · intro e
      simp [range_eq, min_eq, h]

/-- Witness for C8: on the `SLC` fixture, `range` of the mean-temperature
column is `50 - 30 = 20`, and on a missing column it raises exactly the
error `max` raises. -/
theorem C8_range_witness :
    wsSLC.range "SLC_temp_mean" none = .ok (some 20)
    ∧ wsSLC.range "nope" none = .error (.valueError (colNotFoundMsg "nope")) := by
  constructor
  · obtain ⟨a, b, hmax, hmin, hr⟩ :=
      (C8_range_spec wsSLC "SLC_temp_mean" none).1 (by decide)
    have ha : a = some 50 := by
      have h2 : wsSLC.max "SLC_temp_mean" none = .ok (some 50) := by decide
      rw [hmax] at h2
      exact Except.ok.inj h2
    have hb : b = some 30 := by
      have h2 : wsSLC.min "SLC_temp_mean" none = .ok (some 30) := by decide
      rw [hmin] at h2
      exact Except.ok.inj h2
    rw [hr, ha, hb]
    norm_num [osub]
  · exact ((C8_range_spec wsSLC "nope" none).2.1 _).mpr (by decide)

/-- C9: on a column with at least one non-missing value, `mode` returns
the smallest value among those of peak frequency; on an empty or
all-missing column it returns the NaN sentinel rather than raising; on
`[70, 75, 70]` it yields 70. -/
theorem C9_mode_spec (ws : WeatherStats) (column : String) (data : Option DataFrame) :
    ((ws.resolve data).hasColumn column = true →
      (dropNone ((ws.resolve data).getCol column) ≠ [] →
        ∃ mv, ws.mode column data = .ok (some mv)
          ∧ mv ∈ dropNone ((ws.resolve data).getCol column)
          ∧ (dropNone ((ws.resolve data).getCol column)).count mv
              = maxCount (dropNone ((ws.resolve data).getCol column))
          ∧ ∀ v ∈ dropNone ((ws.resolve data).getCol column),
              (dropNone ((ws.resolve data).getCol column)).count v
                  = maxCount (dropNone ((ws.resolve data).getCol column)) → mv ≤ v)
      ∧ (dropNone ((ws.resolve data).getCol column) = [] →
        ws.mode column data = .ok none))
    ∧ wsMode.mode "t" none = .ok (some 70) := by
  constructor
  · intro h
    constructor
    · intro hne
      set vals := dropNone ((ws.resolve data).getCol column) with hv
      obtain ⟨v0, hv0, hc0⟩ := maxCount_attained hne
      have hv0f : v0 ∈ vals.filter (fun v => vals.count v == maxCount vals) :=
        List.mem_filter.mpr ⟨hv0, by simp [hc0]⟩
      obtain ⟨mv, hmv, hmem, hle⟩ :=
        listMinQ_spec (List.ne_nil_of_mem hv0f)
      obtain ⟨hmvv, hmvc⟩ := List.mem_filter.mp hmem
      refine ⟨mv, ?_, hmvv, by simpa using hmvc, ?_⟩
      · simp [mode_eq, h, modeList, hmv]
      · intro v hvv hvc
        exact hle v (List.mem_filter.mpr ⟨hvv, by simp [hvc]⟩)
    · intro hnil
      simp [mode_eq, h, modeList, hnil, listMinQ]
  · decide

/-- Witness for C9: the mode fixture has the peak-frequency minimum 70 in
its `t` column and returns the NaN sentinel on its all-missing column. -/
theorem C9_mode_witness :
    (∃ mv, wsMode.mode "t" none = .ok (some mv)
      ∧ mv ∈ dropNone ((wsMode.resolve none).getCol "t"))
    ∧ wsMode.mode "empty" none = .ok none := by
  constructor
  · obtain ⟨mv, hmode, hmem, _, _⟩ :=
      ((C9_mode_spec wsMode "t" none).1 (by decide)).1 (by decide)
    exact ⟨mv, hmode, hmem⟩
  · exact ((C9_mode_spec wsMode "empty" none).1 (by decide)).2 (by decide)

theorem list_map_eq_self {α : Type} {f : α → α} {l : List α} (h : l.map f = l) :
    ∀ x ∈ l, f x = x := by
  induction l with
  | nil => intro x hx; cases hx
  | cons a as ih =>
    intro x hx
    simp only [List.map_cons, List.cons.injEq] at h
    rcases List.mem_cons.mp hx with rfl | hx
    · exact h.1
    · exact ih h.2 x hx

/-- C10: a successful construction overwrites the `DATE` column of the
caller's own frame in place with the parsed datetimes, so a caller whose
frame had at least one raw date row no longer holds its original data. -/
theorem C10_init_frame_effect (data mutated : RawFrame) (inner : DataFrame)
    (h : WeatherDataset.init data = .ok (mutated, inner)) :
    ∃ dcol dates,
      data.cols.find? (fun c => c.1 == "DATE") = some dcol
      ∧ parseDates dcol.2 = some dates
      ∧ mutated.cols = data.cols.map
          (fun c => if c.1 == "DATE" then (c.1, dates.map Cell.dt) else c)
      ∧ (dcol.2 ≠ [] → mutated ≠ data) := by
  unfold WeatherDataset.init at h
  split at h
  · exact Except.noConfusion h
  · rename_i dcol hfind
    split at h
    · exact Except.noConfusion h
    · rename_i dates hparse
      simp only [Except.ok.injEq, Prod.mk.injEq] at h
      obtain ⟨hmuteq, hinnereq⟩ := h
      have hmut : mutated.cols = data.cols.map
          (fun c => if c.1 == "DATE" then (c.1, dates.map Cell.dt) else c) := by
        rw [← hmuteq]
      refine ⟨dcol, dates, hfind, hparse, hmut, ?_⟩
      intro hne heq
      have hself : data.cols.map
          (fun c => if c.1 == "DATE" then (c.1, dates.map Cell.dt) else c) = data.cols := by
        rw [← hmut, heq]
      have hdmem : dcol ∈ data.cols := List.mem_of_find?_eq_some hfind
      have hdpred := List.find?_some hfind
      have hfix := list_map_eq_self hself dcol hdmem
      rw [if_pos hdpred] at hfix
      have hcol2 : dates.map Cell.dt = dcol.2 := congrArg Prod.snd hfix
      cases hd2 : dcol.2 with
      | nil => exact hne hd2
      | cons c rest =>
        rw [hd2] at hparse hcol2
        cases dates with
        | nil => simp at hcol2
        | cons d ds =>
          simp only [List.map_cons, List.cons.injEq] at hcol2
          have hc : c = Cell.dt d := hcol2.1.symm
          rw [hc] at hparse
          simp [parseDates, parseCellDate] at hparse

/-- Witness for C10: constructing from the concrete raw frame succeeds
and leaves the caller's frame different from what it was created with. -/
theorem C10_init_frame_effect_witness :
    WeatherDataset.init frameEx = .ok (frameExMut, innerEx) ∧ frameExMut ≠ frameEx := by
  have hinit : WeatherDataset.init frameEx = .ok (frameExMut, innerEx) := by decide
  obtain ⟨dcol, dates, hfind, hparse, hmut, hneq⟩ :=
    C10_init_frame_effect frameEx frameExMut innerEx hinit
  refine ⟨hinit, hneq ?_⟩
  have h2 : frameEx.cols.find? (fun c => c.1 == "DATE")
      = some ("DATE", [Cell.rawDate 20200115, Cell.rawDate 20200116]) := by decide
  rw [hfind] at h2
  have hd : dcol = ("DATE", [Cell.rawDate 20200115, Cell.rawDate 20200116]) :=
    Option.some.inj h2
  rw [hd]
  simp
